import Mathlib

/-!
Shallow embedding of the go-vnc VNC client protocol engine and proofs about it.

The Go sources are modelled as executable Lean definitions:

* machine integers (`uint8`, `uint16`, `uint32`) become `Nat` with explicit
  `% 2^w` wherever Go's wrap-around arithmetic matters;
* byte streams become `List Nat` consumed by explicit state passing;
* fallible Go functions return `Except ErrCat`, where `ErrCat` mirrors the
  library's error taxonomy (`protocolError`, `validationError`, ...);
* a Go runtime panic (index out of range) is modelled as an `Except.error`
  carrying `ErrCat.panic`, to keep the functions total while distinguishing
  panics from the library's own categorized errors.

Each definition is translated from the corresponding Go function, whose file
and name are given in its doc comment.
-/

namespace GoVNC

/-- Error categories of the library's error taxonomy (plus `panic` for Go
runtime panics, which are not ordinary return values). -/
inductive ErrCat where
  | protocol
  | authentication
  | encoding
  | network
  | validation
  | timeout
  | unsupported
  | configuration
  | panic
  deriving DecidableEq, Repr

/-- A byte stream: each element is a byte value in `[0, 255]`. -/
abbrev Bytes := List Nat

instance {ε α : Type} [DecidableEq ε] [DecidableEq α] : DecidableEq (Except ε α) := fun x y =>
  match x, y with
  | .ok a, .ok b =>
    if h : a = b then isTrue (by rw [h]) else isFalse (fun hc => h (Except.ok.inj hc))
  | .error e1, .error e2 =>
    if h : e1 = e2 then isTrue (by rw [h]) else isFalse (fun hc => h (Except.error.inj hc))
  | .ok _, .error _ => isFalse (fun hc => Except.noConfusion hc)
  | .error _, .ok _ => isFalse (fun hc => Except.noConfusion hc)

/-! ## Hextile tile-cap arithmetic (`HextileEncoding.Read`, src/unnamed/part_000)

In Go, `rect.Width` and `rect.Height` are `uint16`, `HextileTileSize` is the
untyped constant 16, so `tilesX := (rect.Width + HextileTileSize - 1) / HextileTileSize`
is computed in `uint16` arithmetic: the addition wraps modulo 2^16.
`totalTiles := int(tilesX * tilesY)` multiplies the two `uint16` values, again
modulo 2^16, before the (value-preserving) conversion to `int`. -/

/-- Value of `tilesX` as computed by `HextileEncoding.Read`. -/
def hextileTilesX (w : Nat) : Nat := ((w + 15) % 65536) / 16

/-- Value of `tilesY` as computed by `HextileEncoding.Read`. -/
def hextileTilesY (h : Nat) : Nat := ((h + 15) % 65536) / 16

/-- Value of `totalTiles` as computed by `HextileEncoding.Read`: the `uint16` product
wraps modulo 2^16 before the conversion to `int`. -/
def hextileTotalTiles (w h : Nat) : Nat :=
  (hextileTilesX w * hextileTilesY h) % 65536

/-- The `maxTiles` constant from `HextileEncoding.Read`. -/
def hextileMaxTiles : Nat := 100000

/-- The cap test `totalTiles > maxTiles` from `HextileEncoding.Read`. -/
def hextileCapRejects (w h : Nat) : Bool :=
  decide (hextileTotalTiles w h > hextileMaxTiles)

/-- The tile count named by the specification: `ceil(Width/16) * ceil(Height/16)`
with exact (non-wrapping) arithmetic. -/
def specHextileTileCount (w h : Nat) : Nat :=
  ((w + 15) / 16) * ((h + 15) / 16)

/-! ## Data model (color.go, pixel_format.go) -/

/-- Model of `Color` (color.go): 16-bit unsigned RGB components. -/
structure Color where
  R : Nat
  G : Nat
  B : Nat
  deriving DecidableEq, Repr

/-- The zero value of `Color` (Go's zero-initialized struct). -/
def Color.zero : Color := ⟨0, 0, 0⟩

/-- Model of `PixelFormat` (pixel_format.go).  Numeric fields are Go `uint8`/`uint16`
values; theorems carry the corresponding range hypotheses where they matter. -/
structure PixelFormat where
  BPP : Nat
  Depth : Nat
  BigEndian : Bool
  TrueColor : Bool
  RedMax : Nat
  GreenMax : Nat
  BlueMax : Nat
  RedShift : Nat
  GreenShift : Nat
  BlueShift : Nat
  deriving DecidableEq, Repr

/-! ## Population count (`InputValidator.countBits`, src/unnamed/part_007) -/

/-- Specification-level popcount: the number of set bits of `n`.  This is the
meaning of `popcount` in the specification's pixel-format invariant; it is
defined independently of the source loop so the two can be compared. -/
def popcount (n : Nat) : Nat :=
  if n = 0 then 0 else popcount (n / 2) + n % 2
termination_by n
decreasing_by exact Nat.div_lt_self (by omega) (by omega)

/-- The loop body of `InputValidator.countBits`:
`for value != 0 { count++; value &= value - 1 }`. -/
def countBitsLoop (value count : Nat) : Nat :=
  if value = 0 then count
  else countBitsLoop (value &&& (value - 1)) (count + 1)
termination_by value
decreasing_by
  have h1 : value &&& (value - 1) ≤ value - 1 := Nat.and_le_right
  omega

/-- Model of `InputValidator.countBits` (src/unnamed/part_007): count of set bits via
the `value &= value - 1` trick. -/
def ivCountBits (v : Nat) : Nat := countBitsLoop v 0

/-! ## `InputValidator.ValidatePixelFormat` (src/unnamed/part_007) -/

/-- Model of `InputValidator.ValidatePixelFormat`, check for check in source order.
The Go `nil`-pointer check has no counterpart for a Lean value argument.
`maxShift := pf.BPP - 1` and the rejection `pf.RedShift >= maxShift` use
`>=`, so a shift equal to `BPP - 1` is rejected. -/
def validatePixelFormat (pf : PixelFormat) : Except ErrCat Unit :=
  if ¬(pf.BPP = 8 ∨ pf.BPP = 16 ∨ pf.BPP = 32) then .error .validation
  else if pf.Depth = 0 ∨ pf.Depth > pf.BPP then .error .validation
  else if pf.TrueColor then
    if pf.RedMax = 0 ∨ pf.GreenMax = 0 ∨ pf.BlueMax = 0 then .error .validation
    else if pf.RedShift ≥ pf.BPP - 1 ∨ pf.GreenShift ≥ pf.BPP - 1 ∨ pf.BlueShift ≥ pf.BPP - 1 then
      .error .validation
    else if ivCountBits pf.RedMax + ivCountBits pf.GreenMax + ivCountBits pf.BlueMax > pf.Depth then
      .error .validation
    else .ok ()
  else .ok ()

/-- The acceptance condition asserted by claim C4, written from the claim's own
words, for comparison with the source validator: bpp in {8,16,32}, depth in
[1,bpp], non-zero maxima, every shift strictly below bpp, popcount sum at most
depth. -/
def claimC4Accepts (pf : PixelFormat) : Prop :=
  (pf.BPP = 8 ∨ pf.BPP = 16 ∨ pf.BPP = 32) ∧
  1 ≤ pf.Depth ∧ pf.Depth ≤ pf.BPP ∧
  pf.RedMax ≠ 0 ∧ pf.GreenMax ≠ 0 ∧ pf.BlueMax ≠ 0 ∧
  pf.RedShift < pf.BPP ∧ pf.GreenShift < pf.BPP ∧ pf.BlueShift < pf.BPP ∧
  popcount pf.RedMax + popcount pf.GreenMax + popcount pf.BlueMax ≤ pf.Depth

/-- A true-color format with `red_shift = bpp - 1 = 7`: the claim's condition
holds, in particular the shift equals `bpp - 1`. -/
def pfShiftSeven : PixelFormat :=
  { BPP := 8, Depth := 8, BigEndian := false, TrueColor := true
    RedMax := 1, GreenMax := 1, BlueMax := 1
    RedShift := 7, GreenShift := 0, BlueShift := 0 }

/-! ## Pixel-format wire form (pixel_format.go) -/

/-- Big-endian encoding of a `uint16` value as two bytes (`binary.Write` with
`binary.BigEndian`). -/
def be16 (v : Nat) : Bytes := [v / 256 % 256, v % 256]

/-- Model of `writePixelFormat` (pixel_format.go): the 16-byte wire form.  When
`TrueColor` is unset only the first four bytes are written into the buffer;
the Go code then returns `buf.Bytes()[0:16]`, which reslices into the
buffer's freshly allocated (hence zero) capacity, so the remaining bytes read
as 0.  The `binary.Write` calls into a `bytes.Buffer` cannot fail, so the
function's error result is always nil and is dropped here. -/
def writePixelFormat (f : PixelFormat) : Bytes :=
  ([f.BPP % 256, f.Depth % 256,
    if f.BigEndian then 1 else 0,
    if f.TrueColor then 1 else 0]
   ++ (if f.TrueColor then
        be16 f.RedMax ++ be16 f.GreenMax ++ be16 f.BlueMax
          ++ [f.RedShift % 256, f.GreenShift % 256, f.BlueShift % 256]
       else [])
   ++ List.replicate 16 0).take 16

/-- Model of `readPixelFormat` (pixel_format.go): parse 16 bytes into a zero-initialized
`PixelFormat`.  `BigEndian`/`TrueColor` are set when the flag byte is non-zero;
when the true-color flag byte is zero the six color fields are never read and
keep their zero initialization.  A short input fails `io.ReadFull` and is a
network error. -/
def readPixelFormat : Bytes → Except ErrCat PixelFormat
  | b0 :: b1 :: b2 :: b3 :: b4 :: b5 :: b6 :: b7 :: b8 :: b9 :: b10 :: b11 :: b12 :: _ :: _ :: _ :: _ =>
    .ok { BPP := b0
          Depth := b1
          BigEndian := decide (b2 ≠ 0)
          TrueColor := decide (b3 ≠ 0)
          RedMax := if b3 ≠ 0 then b4 * 256 + b5 else 0
          GreenMax := if b3 ≠ 0 then b6 * 256 + b7 else 0
          BlueMax := if b3 ≠ 0 then b8 * 256 + b9 else 0
          RedShift := if b3 ≠ 0 then b10 else 0
          GreenShift := if b3 ≠ 0 then b11 else 0
          BlueShift := if b3 ≠ 0 then b12 else 0 }
  | _ => .error .network

/-- An indexed-color `PixelFormat` whose `RedMax` field is non-zero: Go does
not stop a caller from populating the color fields of a non-true-color value. -/
def pfIndexedRed : PixelFormat :=
  { BPP := 8, Depth := 8, BigEndian := false, TrueColor := false
    RedMax := 1, GreenMax := 0, BlueMax := 0
    RedShift := 0, GreenShift := 0, BlueShift := 0 }

/-! ## Input validators (src/unnamed/part_007) -/

/-- Model of `InputValidator.ValidateRectangle`.  All six arguments are Go `uint16`
values.  `math.MaxUint16 - width` cannot wrap for `width ≤ 65535`, and once
`x ≤ 65535 - width` has been checked, `x + width` cannot wrap either, so plain
`Nat` arithmetic is exact here. -/
def validateRectangle (x y width height fbWidth fbHeight : Nat) : Except ErrCat Unit :=
  if width = 0 ∨ height = 0 then .error .validation
  else if x > 65535 - width ∨ y > 65535 - height then .error .validation
  else if x + width > fbWidth ∨ y + height > fbHeight then .error .validation
  else .ok ()

/-- Model of `InputValidator.ValidateEncodingType`: whitelisted type codes are accepted,
otherwise only the magnitude is bounded. -/
def validateEncodingType (t : Int) : Except ErrCat Unit :=
  if t ≥ 0 then
    if t = 0 ∨ t = 1 ∨ t = 2 ∨ t = 4 ∨ t = 5 ∨ t = 15 ∨ t = 16 then .ok ()
    else if t > 1000000 then .error .validation
    else .ok ()
  else
    if t = -1 ∨ t = -2 ∨ t = -223 ∨ t = -224 ∨ t = -232 ∨ t = -239 ∨ t = -240 ∨ t = -247
        ∨ t = -314 then .ok ()
    else if t < -1000000 then .error .validation
    else .ok ()

/-- Model of `InputValidator.ValidateFramebufferDimensions`.  The Go area computation is
done in `uint64` and cannot overflow for `uint16` inputs. -/
def validateFramebufferDimensions (width height : Nat) : Except ErrCat Unit :=
  if width = 0 ∨ height = 0 then .error .validation
  else if width > 32768 ∨ height > 32768 then .error .validation
  else if width * height > 1024 * 1024 * 1024 then .error .validation
  else .ok ()

/-- Model of `InputValidator.ValidateMessageLength`: zero lengths and lengths above the
maximum are rejected. -/
def validateMessageLength (length maxLength : Nat) : Except ErrCat Unit :=
  if length = 0 then .error .validation
  else if length > maxLength then .error .validation
  else .ok ()

/-! ## Per-rectangle gate of `FramebufferUpdateMessage.Read` (server_messages.go) -/

/-- The validation a rectangle header passes in `FramebufferUpdateMessage.Read`
before the rectangle is handed to its encoding's decoder: the encoding type is
validated, and only non-pseudo (non-negative) types are bounds-checked against
the framebuffer (`isPseudoEncoding := encodingType < 0`).  Both failures are
wrapped as protocol errors by the caller. -/
def rectHeaderCheck (x y width height fbWidth fbHeight : Nat) (encodingType : Int) :
    Except ErrCat Unit :=
  match validateEncodingType encodingType with
  | .error _ => .error .protocol
  | .ok () =>
    if encodingType < 0 then .ok ()
    else
      match validateRectangle x y width height fbWidth fbHeight with
      | .error _ => .error .protocol
      | .ok () => .ok ()

/-! ## Connection state and `SetPixelFormat` (client.go) -/

/-- The session-state fields of `ClientConn` (client.go) that the claims
touch.  `ColorMap` models the Go `[256]Color` array; `Encs` keeps only the
type codes of the configured encodings, which is all the claims need. -/
structure ClientConn where
  FrameBufferWidth : Nat
  FrameBufferHeight : Nat
  DesktopName : List Nat
  PixelFormat : PixelFormat
  ColorMap : List Color
  Encs : List Int
  deriving DecidableEq, Repr

/-- Model of `ClientConn.SetPixelFormat` (client.go): validate, write the 20-byte frame
(type byte 0, three zero padding bytes, 16-byte pixel format), then reset the
color map to the all-zero array.  The stored `PixelFormat` field is never
assigned.  On a validation failure the method returns before writing anything;
a network failure of the write itself is outside this pure model. -/
def setPixelFormat (c : ClientConn) (format : PixelFormat) :
    Except ErrCat (ClientConn × Bytes) :=
  match validatePixelFormat format with
  | .error _ => .error .validation
  | .ok () =>
    .ok ({ c with ColorMap := List.replicate 256 Color.zero },
         [0, 0, 0, 0] ++ writePixelFormat format)

/-- An example connection in indexed-color mode with a populated state. -/
def connIndexed : ClientConn :=
  { FrameBufferWidth := 800
    FrameBufferHeight := 600
    DesktopName := [100, 101, 115, 107]
    PixelFormat := { BPP := 8, Depth := 8, BigEndian := false, TrueColor := false
                     RedMax := 0, GreenMax := 0, BlueMax := 0
                     RedShift := 0, GreenShift := 0, BlueShift := 0 }
    ColorMap := List.replicate 256 ⟨257, 257, 257⟩
    Encs := [5, 1] }

/-- The 32-bit RGBA preset (pixel_format.go), used as the format being set. -/
def fmtRGB888 : PixelFormat :=
  { BPP := 32, Depth := 24, BigEndian := false, TrueColor := true
    RedMax := 255, GreenMax := 255, BlueMax := 255
    RedShift := 16, GreenShift := 8, BlueShift := 0 }

/-! ## ServerInit stage of the handshake (client.go) -/

/-- The validating prefix of the ServerInit stage of
`ClientConn.handshakeWithContext` (client.go): framebuffer dimensions, the
16-byte pixel format and the desktop-name length are validated in source
order, each failure wrapped as a protocol error.  The wire reads are modelled
by passing the read values.  On success the handshake goes on to read the
desktop name (an invalid name is sanitized, never failed on) and the
connection enters the Running state; on error the handshake returns the error
and Running is never reached. -/
def serverInitValidate (width height : Nat) (pfBytes : Bytes) (nameLength : Nat) :
    Except ErrCat (Nat × Nat × PixelFormat) :=
  match validateFramebufferDimensions width height with
  | .error _ => .error .protocol
  | .ok () =>
    match readPixelFormat pfBytes with
    | .error _ => .error .protocol
    | .ok pixelFormat =>
      match validatePixelFormat pixelFormat with
      | .error _ => .error .protocol
      | .ok () =>
        match validateMessageLength nameLength (1024 * 1024) with
        | .error _ => .error .protocol
        | .ok () => .ok (width, height, pixelFormat)

/-! ## Pixel reader (pixel_utils.go) -/

/-- Model of `io.ReadFull`: read exactly `n` bytes from the stream, failing on short
input with a network error. -/
def readN (n : Nat) (s : Bytes) : Except ErrCat (Bytes × Bytes) :=
  if s.length < n then .error .network
  else .ok (s.take n, s.drop n)

/-- Model of `PixelReader.bytesToPixel` (pixel_utils.go): assemble the raw pixel value
from `bpp/8` bytes in the byte order selected by the `BigEndian` flag
(`binary.BigEndian`/`binary.LittleEndian` `Uint16`/`Uint32`); any other `BPP`
yields 0.  Callers always pass exactly `bpp/8` bytes, as in Go, where the
slice has exactly that length; `getD` out-of-range defaults never fire. -/
def bytesToPixel (pf : PixelFormat) (pixelBytes : Bytes) : Nat :=
  if pf.BPP = 8 then pixelBytes.getD 0 0
  else if pf.BPP = 16 then
    if pf.BigEndian then pixelBytes.getD 0 0 * 256 + pixelBytes.getD 1 0
    else pixelBytes.getD 1 0 * 256 + pixelBytes.getD 0 0
  else if pf.BPP = 32 then
    if pf.BigEndian then
      pixelBytes.getD 0 0 * 16777216 + pixelBytes.getD 1 0 * 65536 +
        pixelBytes.getD 2 0 * 256 + pixelBytes.getD 3 0
    else
      pixelBytes.getD 3 0 * 16777216 + pixelBytes.getD 2 0 * 65536 +
        pixelBytes.getD 1 0 * 256 + pixelBytes.getD 0 0
  else 0

/-- Model of `PixelReader.pixelToColor` (pixel_utils.go).  For true color, each
component is `uint16((raw >> shift) & max)` — the cast is the `% 65536`.  For
indexed color the Go code indexes the 256-entry array `pr.colorMap[rawPixel]`,
which panics when `rawPixel` is out of range. -/
def pixelToColor (pf : PixelFormat) (colorMap : List Color) (rawPixel : Nat) :
    Except ErrCat Color :=
  if pf.TrueColor then
    .ok { R := ((rawPixel >>> pf.RedShift) &&& pf.RedMax) % 65536
          G := ((rawPixel >>> pf.GreenShift) &&& pf.GreenMax) % 65536
          B := ((rawPixel >>> pf.BlueShift) &&& pf.BlueMax) % 65536 }
  else
    match colorMap.get? rawPixel with
    | some c => .ok c
    | none => .error .panic

/-- Model of `PixelReader.ReadPixelColor` (pixel_utils.go): read `bpp/8` bytes,
assemble the raw value, convert to a `Color`. -/
def readPixelColor (pf : PixelFormat) (colorMap : List Color) (s : Bytes) :
    Except ErrCat (Color × Bytes) :=
  match readN (pf.BPP / 8) s with
  | .error e => .error e
  | .ok (pixelBytes, rest) =>
    match pixelToColor pf colorMap (bytesToPixel pf pixelBytes) with
    | .error e => .error e
    | .ok c => .ok (c, rest)

/-! ## Hextile decoder (src/unnamed/part_000) -/

/-- Model of `HextileSubrectangle` (src/unnamed/part_000). -/
structure HextileSubrectangle where
  Color : GoVNC.Color
  X : Nat
  Y : Nat
  Width : Nat
  Height : Nat
  deriving DecidableEq, Repr

/-- Model of `HextileTile` (src/unnamed/part_000).  Fields a decoding path does not
assign keep Go's zero values. -/
structure HextileTile where
  Width : Nat
  Height : Nat
  Background : GoVNC.Color
  Foreground : GoVNC.Color
  Colors : List GoVNC.Color
  Subrectangles : List HextileSubrectangle
  deriving DecidableEq, Repr

/-- The raw-tile pixel loop of `HextileEncoding.Read`: read `n` pixels.
Read failures are wrapped as encoding errors. -/
def readPixelColors (pf : PixelFormat) (cm : List Color) :
    Nat → Bytes → Except ErrCat (List Color × Bytes)
  | 0, s => .ok ([], s)
  | n + 1, s =>
    match readPixelColor pf cm s with
    | .error _ => .error .encoding
    | .ok (c, s1) =>
      match readPixelColors pf cm n s1 with
      | .error e => .error e
      | .ok (cs, s2) => .ok (c :: cs, s2)

/-- The subrectangle loop of `HextileEncoding.Read`: per subrectangle, read a
pixel when `SubrectsColoured` is set (else use the current foreground), read
the packed `xy` and `wh` bytes, and validate the subrectangle against the tile
(`tw`, `th` are at most 16, so the Go `uint8`/`uint16` casts are exact). -/
def readHextileSubrects (pf : PixelFormat) (cm : List Color) (coloured : Bool) (fg : Color)
    (tw th : Nat) : Nat → Bytes → Except ErrCat (List HextileSubrectangle × Bytes)
  | 0, s => .ok ([], s)
  | n + 1, s =>
    match (if coloured then (readPixelColor pf cm s).mapError (fun _ => ErrCat.encoding)
           else .ok (fg, s)) with
    | .error e => .error e
    | .ok (c, s1) =>
      match s1 with
      | [] => .error .encoding
      | xyData :: s2 =>
        match s2 with
        | [] => .error .encoding
        | whData :: s3 =>
          let x := (xyData >>> 4) &&& 15
          let y := xyData &&& 15
          let w := ((whData >>> 4) &&& 15) + 1
          let h := (whData &&& 15) + 1
          if x ≥ tw ∨ y ≥ th then .error .encoding
          else if x + w > tw ∨ y + h > th then .error .encoding
          else
            match readHextileSubrects pf cm coloured fg tw th n s3 with
            | .error e => .error e
            | .ok (subs, s4) => .ok (⟨c, x, y, w, h⟩ :: subs, s4)

/-- The per-tile body of `HextileEncoding.Read`: read the subencoding byte and
decode one tile, threading the running background and foreground.  A raw tile
reads `tw*th` pixels and leaves the running colors untouched (its own
`Background`/`Foreground` keep their zero values); otherwise the background
and foreground are read exactly when their flags are set and inherited
otherwise.  The Go check `numSubrects > MaxSubrectsPerTile` is kept although a
`uint8` count can never exceed 255. -/
def decodeTile (pf : PixelFormat) (cm : List Color) (bg fg : Color) (tw th : Nat) (s : Bytes) :
    Except ErrCat (HextileTile × Color × Color × Bytes) :=
  match s with
  | [] => .error .encoding
  | sub :: s1 =>
    if sub &&& 1 ≠ 0 then
      match readPixelColors pf cm (tw * th) s1 with
      | .error e => .error e
      | .ok (colors, s2) =>
        .ok ({ Width := tw, Height := th, Background := Color.zero, Foreground := Color.zero,
               Colors := colors, Subrectangles := [] }, bg, fg, s2)
    else
      match (if sub &&& 2 ≠ 0 then (readPixelColor pf cm s1).mapError (fun _ => ErrCat.encoding)
             else .ok (bg, s1)) with
      | .error e => .error e
      | .ok (bg1, s2) =>
        match (if sub &&& 4 ≠ 0 then (readPixelColor pf cm s2).mapError (fun _ => ErrCat.encoding)
               else .ok (fg, s2)) with
        | .error e => .error e
        | .ok (fg1, s3) =>
          if sub &&& 8 ≠ 0 then
            match s3 with
            | [] => .error .encoding
            | numSubrects :: s4 =>
              if numSubrects > 255 then .error .encoding
              else
                match readHextileSubrects pf cm (sub &&& 16 ≠ 0) fg1 tw th numSubrects s4 with
                | .error e => .error e
                | .ok (subs, s5) =>
                  .ok ({ Width := tw, Height := th, Background := bg1, Foreground := fg1,
                         Colors := [], Subrectangles := subs }, bg1, fg1, s5)
          else
            .ok ({ Width := tw, Height := th, Background := bg1, Foreground := fg1,
                   Colors := [], Subrectangles := [] }, bg1, fg1, s3)

/-- The tile grid of `HextileEncoding.Read`, row-major: `tileY` outer, `tileX`
inner. -/
def hextileGrid (tilesX tilesY : Nat) : List (Nat × Nat) :=
  (List.range tilesY).flatMap fun ty => (List.range tilesX).map fun tx => (ty, tx)

/-- The tile loop of `HextileEncoding.Read` over a list of `(tileY, tileX)`
indices: compute the edge-clipped tile size and decode each tile, threading
the running background/foreground.  (For in-range indices `tileX*16+16`
cannot wrap `uint16`: `tilesX ≤ 4095`, so `tileX*16+16 ≤ 65520`.) -/
def decodeTiles (pf : PixelFormat) (cm : List Color) (rectW rectH : Nat) :
    List (Nat × Nat) → Color → Color → Bytes →
    Except ErrCat (List HextileTile × Color × Color × Bytes)
  | [], bg, fg, s => .ok ([], bg, fg, s)
  | (ty, tx) :: rest, bg, fg, s =>
    let tw := if tx * 16 + 16 > rectW then rectW - tx * 16 else 16
    let th := if ty * 16 + 16 > rectH then rectH - ty * 16 else 16
    match decodeTile pf cm bg fg tw th s with
    | .error e => .error e
    | .ok (tile, bg1, fg1, s1) =>
      match decodeTiles pf cm rectW rectH rest bg1 fg1 s1 with
      | .error e => .error e
      | .ok (tiles, bg2, fg2, s2) => .ok (tile :: tiles, bg2, fg2, s2)

/-- Model of `HextileEncoding.Read` (src/unnamed/part_000): validate the rectangle
against the framebuffer when its dimensions are known, apply the (dead, see
C1) tile cap, then decode the tile grid with running background/foreground
initialized to the zero `Color`.  When the `uint16` product `tilesX*tilesY`
wrapped, the Go loop writes past the end of the `tiles` slice and panics
instead of returning; the model reports that as `ErrCat.panic`. -/
def hextileRead (fbW fbH rectX rectY rectW rectH : Nat) (pf : PixelFormat) (cm : List Color)
    (s : Bytes) : Except ErrCat (List HextileTile) :=
  match (if 0 < fbW ∧ 0 < fbH then
          (validateRectangle rectX rectY rectW rectH fbW fbH).mapError (fun _ => ErrCat.encoding)
         else .ok ()) with
  | .error e => .error e
  | .ok () =>
    if hextileTotalTiles rectW rectH > hextileMaxTiles then .error .encoding
    else if hextileTilesX rectW * hextileTilesY rectH ≠ hextileTotalTiles rectW rectH then
      .error .panic
    else
      match decodeTiles pf cm rectW rectH
          (hextileGrid (hextileTilesX rectW) (hextileTilesY rectH)) Color.zero Color.zero s with
      | .error e => .error e
      | .ok (tiles, _, _, _) => .ok tiles

/-- The 8-bit indexed preset `PixelFormat8BitIndexed` (pixel_format.go). -/
def pfIndexed8 : PixelFormat :=
  { BPP := 8, Depth := 8, BigEndian := false, TrueColor := false
    RedMax := 0, GreenMax := 0, BlueMax := 0
    RedShift := 0, GreenShift := 0, BlueShift := 0 }

/-! ## `ClientConn.CutText` (client.go) with `ValidateTextData` and
`SanitizeText` (src/unnamed/part_007)

A Go string is modelled as its list of code points (runes); the claims only
concern valid-UTF-8 strings, for which this representation is lossless.
`len(text)` in Go counts UTF-8 bytes, while `for _, char := range text`
iterates runes — the distinction is the heart of claim C2. -/

/-- Number of UTF-8 bytes Go uses to encode one code point. -/
def utf8Len (r : Nat) : Nat :=
  if r < 128 then 1 else if r < 2048 then 2 else if r < 65536 then 3 else 4

/-- Value of `len(text)` for a Go string: the total UTF-8 byte count. -/
def strByteLen (text : List Nat) : Nat := (text.map utf8Len).sum

/-- Big-endian encoding of a `uint32` value as four bytes. -/
def be32 (v : Nat) : Bytes :=
  [v / 16777216 % 256, v / 65536 % 256, v / 256 % 256, v % 256]

/-- Model of `InputValidator.ValidateTextData` (src/unnamed/part_007): byte length at
most `maxLength`, and no control characters other than tab, newline and
carriage return.  The `utf8.ValidString` check always passes in this model,
which represents only valid-UTF-8 strings. -/
def validateTextData (text : List Nat) (maxLength : Nat) : Except ErrCat Unit :=
  if strByteLen text > maxLength then .error .validation
  else if text.any (fun r => decide (r < 32 ∧ r ≠ 9 ∧ r ≠ 10 ∧ r ≠ 13)) then .error .validation
  else .ok ()

/-- Go's `unicode.IsPrint` restricted to the Latin-1 range, where it is
printable on `[32,126]` and `[161,255]` except the soft hyphen 173.  Above
255 this model returns true; `CutText`'s observable behaviour is insensitive
to that choice, since both a kept code point above 255 and the replacement
`U+FFFD` fail the later Latin-1 check. -/
def goIsPrint (r : Nat) : Bool :=
  if r ≤ 255 then decide ((32 ≤ r ∧ r ≤ 126) ∨ (161 ≤ r ∧ r ≤ 255 ∧ r ≠ 173))
  else true

/-- Model of `InputValidator.SanitizeText` (src/unnamed/part_007): keep tab, newline
and carriage return; map other control characters to a space; keep printable
code points; map the rest to `U+FFFD` (65533). -/
def sanitizeText (text : List Nat) : List Nat :=
  text.map fun r =>
    if r = 9 ∨ r = 10 ∨ r = 13 then r
    else if r < 32 then 32
    else if goIsPrint r then r
    else 65533

/-- The character loop of `CutText`: reject any rune above
`Latin1MaxCodePoint` (255), otherwise emit the single byte `uint8(char)`. -/
def cutTextCharBytes : List Nat → Except ErrCat Bytes
  | [] => .ok []
  | r :: rest =>
    if r > 255 then .error .validation
    else
      match cutTextCharBytes rest with
      | .error e => .error e
      | .ok bs => .ok (r % 256 :: bs)

/-- Model of `ClientConn.CutText` (client.go): validate, sanitize, then build the frame
`[6, pad(3), u32 len, chars...]` where the length field is
`uint32(len(text))` — the UTF-8 byte count — while the loop writes one byte
per rune.  The final `buf.Bytes()[0:dataLength]` reslices into the buffer's
freshly allocated zeroed capacity whenever `dataLength` exceeds the bytes
written, which for the small messages considered here (capacity at least 64)
yields zero padding. -/
def cutText (text : List Nat) : Except ErrCat Bytes :=
  match validateTextData text 1048576 with
  | .error _ => .error .validation
  | .ok () =>
    let text2 := sanitizeText text
    match cutTextCharBytes text2 with
    | .error e => .error e
    | .ok body =>
      let dataLength := 8 + strByteLen text2
      .ok ((([6, 0, 0, 0] ++ be32 (strByteLen text2)) ++ body
            ++ List.replicate dataLength 0).take dataLength)

/-! ## DES and `SecureDESCipher.EncryptVNCChallenge` (src/unnamed/part_003)

`EncryptVNCChallenge` calls Go's `crypto/des`, which implements standard
single DES (FIPS 46-3).  The block cipher is embedded here in full and
validated below against published known-answer vectors
(`desEncrypt64_known_answer`). -/

/-- DES initial permutation (FIPS 46-3). -/
def desIP : List Nat := [
  58, 50, 42, 34, 26, 18, 10, 2,
  60, 52, 44, 36, 28, 20, 12, 4,
  62, 54, 46, 38, 30, 22, 14, 6,
  64, 56, 48, 40, 32, 24, 16, 8,
  57, 49, 41, 33, 25, 17, 9, 1,
  59, 51, 43, 35, 27, 19, 11, 3,
  61, 53, 45, 37, 29, 21, 13, 5,
  63, 55, 47, 39, 31, 23, 15, 7]

/-- DES final permutation (inverse of the initial permutation). -/
def desFP : List Nat := [
  40, 8, 48, 16, 56, 24, 64, 32,
  39, 7, 47, 15, 55, 23, 63, 31,
  38, 6, 46, 14, 54, 22, 62, 30,
  37, 5, 45, 13, 53, 21, 61, 29,
  36, 4, 44, 12, 52, 20, 60, 28,
  35, 3, 43, 11, 51, 19, 59, 27,
  34, 2, 42, 10, 50, 18, 58, 26,
  33, 1, 41, 9, 49, 17, 57, 25]

/-- DES expansion of the 32-bit half block to 48 bits. -/
def desE : List Nat := [
  32, 1, 2, 3, 4, 5,
  4, 5, 6, 7, 8, 9,
  8, 9, 10, 11, 12, 13,
  12, 13, 14, 15, 16, 17,
  16, 17, 18, 19, 20, 21,
  20, 21, 22, 23, 24, 25,
  24, 25, 26, 27, 28, 29,
  28, 29, 30, 31, 32, 1]

/-- DES permutation applied to the S-box output. -/
def desP : List Nat := [
  16, 7, 20, 21, 29, 12, 28, 17,
  1, 15, 23, 26, 5, 18, 31, 10,
  2, 8, 24, 14, 32, 27, 3, 9,
  19, 13, 30, 6, 22, 11, 4, 25]

/-- DES permuted choice 1 (key schedule). -/
def desPC1 : List Nat := [
  57, 49, 41, 33, 25, 17, 9,
  1, 58, 50, 42, 34, 26, 18,
  10, 2, 59, 51, 43, 35, 27,
  19, 11, 3, 60, 52, 44, 36,
  63, 55, 47, 39, 31, 23, 15,
  7, 62, 54, 46, 38, 30, 22,
  14, 6, 61, 53, 45, 37, 29,
  21, 13, 5, 28, 20, 12, 4]

/-- DES permuted choice 2 (key schedule). -/
def desPC2 : List Nat := [
  14, 17, 11, 24, 1, 5,
  3, 28, 15, 6, 21, 10,
  23, 19, 12, 4, 26, 8,
  16, 7, 27, 20, 13, 2,
  41, 52, 31, 37, 47, 55,
  30, 40, 51, 45, 33, 48,
  44, 49, 39, 56, 34, 53,
  46, 42, 50, 36, 29, 32]

/-- DES per-round left-rotation amounts. -/
def desShifts : List Nat := [
  1, 1, 2, 2, 2, 2, 2, 2, 1, 2, 2, 2, 2, 2, 2, 1]

/-- The eight DES S-boxes, each a 4 x 16 table in row-major order. -/
def desSBoxes : List (List Nat) := [
  [14, 4, 13, 1, 2, 15, 11, 8, 3, 10, 6, 12, 5, 9, 0, 7,
   0, 15, 7, 4, 14, 2, 13, 1, 10, 6, 12, 11, 9, 5, 3, 8,
   4, 1, 14, 8, 13, 6, 2, 11, 15, 12, 9, 7, 3, 10, 5, 0,
   15, 12, 8, 2, 4, 9, 1, 7, 5, 11, 3, 14, 10, 0, 6, 13],
  [15, 1, 8, 14, 6, 11, 3, 4, 9, 7, 2, 13, 12, 0, 5, 10,
   3, 13, 4, 7, 15, 2, 8, 14, 12, 0, 1, 10, 6, 9, 11, 5,
   0, 14, 7, 11, 10, 4, 13, 1, 5, 8, 12, 6, 9, 3, 2, 15,
   13, 8, 10, 1, 3, 15, 4, 2, 11, 6, 7, 12, 0, 5, 14, 9],
  [10, 0, 9, 14, 6, 3, 15, 5, 1, 13, 12, 7, 11, 4, 2, 8,
   13, 7, 0, 9, 3, 4, 6, 10, 2, 8, 5, 14, 12, 11, 15, 1,
   13, 6, 4, 9, 8, 15, 3, 0, 11, 1, 2, 12, 5, 10, 14, 7,
   1, 10, 13, 0, 6, 9, 8, 7, 4, 15, 14, 3, 11, 5, 2, 12],
  [7, 13, 14, 3, 0, 6, 9, 10, 1, 2, 8, 5, 11, 12, 4, 15,
   13, 8, 11, 5, 6, 15, 0, 3, 4, 7, 2, 12, 1, 10, 14, 9,
   10, 6, 9, 0, 12, 11, 7, 13, 15, 1, 3, 14, 5, 2, 8, 4,
   3, 15, 0, 6, 10, 1, 13, 8, 9, 4, 5, 11, 12, 7, 2, 14],
  [2, 12, 4, 1, 7, 10, 11, 6, 8, 5, 3, 15, 13, 0, 14, 9,
   14, 11, 2, 12, 4, 7, 13, 1, 5, 0, 15, 10, 3, 9, 8, 6,
   4, 2, 1, 11, 10, 13, 7, 8, 15, 9, 12, 5, 6, 3, 0, 14,
   11, 8, 12, 7, 1, 14, 2, 13, 6, 15, 0, 9, 10, 4, 5, 3],
  [12, 1, 10, 15, 9, 2, 6, 8, 0, 13, 3, 4, 14, 7, 5, 11,
   10, 15, 4, 2, 7, 12, 9, 5, 6, 1, 13, 14, 0, 11, 3, 8,
   9, 14, 15, 5, 2, 8, 12, 3, 7, 0, 4, 10, 1, 13, 11, 6,
   4, 3, 2, 12, 9, 5, 15, 10, 11, 14, 1, 7, 6, 0, 8, 13],
  [4, 11, 2, 14, 15, 0, 8, 13, 3, 12, 9, 7, 5, 10, 6, 1,
   13, 0, 11, 7, 4, 9, 1, 10, 14, 3, 5, 12, 2, 15, 8, 6,
   1, 4, 11, 13, 12, 3, 7, 14, 10, 15, 6, 8, 0, 5, 9, 2,
   6, 11, 13, 8, 1, 4, 10, 7, 9, 5, 0, 15, 14, 2, 3, 12],
  [13, 2, 8, 4, 6, 15, 11, 1, 10, 9, 3, 14, 5, 0, 12, 7,
   1, 15, 13, 8, 10, 3, 7, 4, 12, 5, 6, 11, 0, 14, 9, 2,
   7, 11, 4, 1, 9, 12, 14, 2, 0, 6, 10, 13, 15, 3, 5, 8,
   2, 1, 14, 7, 4, 10, 8, 13, 15, 12, 9, 0, 3, 5, 6, 11]]

/-- The 256-entry bit-reversal lookup table of `reverseBitsSecure`
(src/unnamed/part_003), transcribed verbatim. -/
def reverseLookup : List Nat := [
  0x00, 0x80, 0x40, 0xc0, 0x20, 0xa0, 0x60, 0xe0,
  0x10, 0x90, 0x50, 0xd0, 0x30, 0xb0, 0x70, 0xf0,
  0x08, 0x88, 0x48, 0xc8, 0x28, 0xa8, 0x68, 0xe8,
  0x18, 0x98, 0x58, 0xd8, 0x38, 0xb8, 0x78, 0xf8,
  0x04, 0x84, 0x44, 0xc4, 0x24, 0xa4, 0x64, 0xe4,
  0x14, 0x94, 0x54, 0xd4, 0x34, 0xb4, 0x74, 0xf4,
  0x0c, 0x8c, 0x4c, 0xcc, 0x2c, 0xac, 0x6c, 0xec,
  0x1c, 0x9c, 0x5c, 0xdc, 0x3c, 0xbc, 0x7c, 0xfc,
  0x02, 0x82, 0x42, 0xc2, 0x22, 0xa2, 0x62, 0xe2,
  0x12, 0x92, 0x52, 0xd2, 0x32, 0xb2, 0x72, 0xf2,
  0x0a, 0x8a, 0x4a, 0xca, 0x2a, 0xaa, 0x6a, 0xea,
  0x1a, 0x9a, 0x5a, 0xda, 0x3a, 0xba, 0x7a, 0xfa,
  0x06, 0x86, 0x46, 0xc6, 0x26, 0xa6, 0x66, 0xe6,
  0x16, 0x96, 0x56, 0xd6, 0x36, 0xb6, 0x76, 0xf6,
  0x0e, 0x8e, 0x4e, 0xce, 0x2e, 0xae, 0x6e, 0xee,
  0x1e, 0x9e, 0x5e, 0xde, 0x3e, 0xbe, 0x7e, 0xfe,
  0x01, 0x81, 0x41, 0xc1, 0x21, 0xa1, 0x61, 0xe1,
  0x11, 0x91, 0x51, 0xd1, 0x31, 0xb1, 0x71, 0xf1,
  0x09, 0x89, 0x49, 0xc9, 0x29, 0xa9, 0x69, 0xe9,
  0x19, 0x99, 0x59, 0xd9, 0x39, 0xb9, 0x79, 0xf9,
  0x05, 0x85, 0x45, 0xc5, 0x25, 0xa5, 0x65, 0xe5,
  0x15, 0x95, 0x55, 0xd5, 0x35, 0xb5, 0x75, 0xf5,
  0x0d, 0x8d, 0x4d, 0xcd, 0x2d, 0xad, 0x6d, 0xed,
  0x1d, 0x9d, 0x5d, 0xdd, 0x3d, 0xbd, 0x7d, 0xfd,
  0x03, 0x83, 0x43, 0xc3, 0x23, 0xa3, 0x63, 0xe3,
  0x13, 0x93, 0x53, 0xd3, 0x33, 0xb3, 0x73, 0xf3,
  0x0b, 0x8b, 0x4b, 0xcb, 0x2b, 0xab, 0x6b, 0xeb,
  0x1b, 0x9b, 0x5b, 0xdb, 0x3b, 0xbb, 0x7b, 0xfb,
  0x07, 0x87, 0x47, 0xc7, 0x27, 0xa7, 0x67, 0xe7,
  0x17, 0x97, 0x57, 0xd7, 0x37, 0xb7, 0x77, 0xf7,
  0x0f, 0x8f, 0x4f, 0xcf, 0x2f, 0xaf, 0x6f, 0xef,
  0x1f, 0x9f, 0x5f, 0xdf, 0x3f, 0xbf, 0x7f, 0xff]

/-- Apply a DES bit-selection table to an `inbits`-bit value, MSB first:
output bit `i` is input bit `table[i]` (1-indexed from the MSB). -/
def desPermute (inbits : Nat) (table : List Nat) (v : Nat) : Nat :=
  table.foldl (fun acc pos => acc * 2 + ((v >>> (inbits - pos)) &&& 1)) 0

/-- The sixteen 48-bit DES round keys of a 64-bit key. -/
def desSubkeys (key64 : Nat) : List Nat :=
  let k56 := desPermute 64 desPC1 key64
  (desShifts.foldl
    (fun (st : List Nat × Nat × Nat) s =>
      let c := ((st.2.1 <<< s) ||| (st.2.1 >>> (28 - s))) &&& 268435455
      let d := ((st.2.2 <<< s) ||| (st.2.2 >>> (28 - s))) &&& 268435455
      (st.1 ++ [desPermute 56 desPC2 ((c <<< 28) ||| d)], c, d))
    ([], k56 >>> 28, k56 &&& 268435455)).1

/-- The DES round function: expand, mix in the round key, substitute through
the eight S-boxes, permute. -/
def desFeistel (r k48 : Nat) : Nat :=
  let x := desPermute 32 desE r ^^^ k48
  desPermute 32 desP ((List.range 8).foldl
    (fun acc i =>
      let six := (x >>> (42 - 6 * i)) &&& 63
      let row := ((six >>> 4) &&& 2) ||| (six &&& 1)
      let col := (six >>> 1) &&& 15
      acc * 16 + (desSBoxes.getD i []).getD (row * 16 + col) 0)
    0)

/-- Single-DES encryption of one 64-bit block under a 64-bit key. -/
def desEncrypt64 (key64 block64 : Nat) : Nat :=
  let v := desPermute 64 desIP block64
  let lr := (desSubkeys key64).foldl
    (fun (lr : Nat × Nat) k => (lr.2, lr.1 ^^^ desFeistel lr.2 k))
    (v >>> 32, v &&& 4294967295)
  desPermute 64 desFP ((lr.2 <<< 32) ||| lr.1)

/-- Big-endian assembly of 8 bytes into a 64-bit value. -/
def bytes8ToNat (bs : Bytes) : Nat := bs.foldl (fun acc b => acc * 256 + b) 0

/-- Big-endian split of a 64-bit value into 8 bytes. -/
def natToBytes8 (v : Nat) : Bytes :=
  [(v >>> 56) &&& 255, (v >>> 48) &&& 255, (v >>> 40) &&& 255, (v >>> 32) &&& 255,
   (v >>> 24) &&& 255, (v >>> 16) &&& 255, (v >>> 8) &&& 255, v &&& 255]

/-- Model of `cipher.Block.Encrypt` of Go's `crypto/des` on one 8-byte block. -/
def desEncryptBlock (key block : Bytes) : Bytes :=
  natToBytes8 (desEncrypt64 (bytes8ToNat key) (bytes8ToNat block))

/-- Model of `SecureDESCipher.reverseBitsSecure` (src/unnamed/part_003): constant-time
bit reversal through the 256-entry lookup table. -/
def reverseBitsSecure (b : Nat) : Nat := reverseLookup.getD b 0

/-- Reversal of the bit order of one byte (LSB becomes MSB), written directly
from its arithmetic meaning, for comparison with the source's lookup table. -/
def bitRev8 (b : Nat) : Nat :=
  (List.range 8).foldl (fun acc i => acc * 2 + ((b >>> i) &&& 1)) 0

/-- The DES key `EncryptVNCChallenge` derives from a password: the first
`min(len,8)` password bytes each bit-reversed, zero-padded to 8 bytes (the
loop `keyBytes[i] = reverseBitsSecure(passwordBytes[i])` for `i < keyLen`,
`keyBytes[i] = 0` otherwise). -/
def vncKey (password : List Nat) : Bytes :=
  (password.take (min password.length 8)).map reverseBitsSecure
    ++ List.replicate (8 - min password.length 8) 0

/-- Model of `SecureDESCipher.EncryptVNCChallenge` (src/unnamed/part_003): reject a
challenge that is not exactly 16 bytes, derive the bit-reversed key, and
DES-encrypt the two 8-byte challenge halves.  `des.NewCipher` fails only for
key sizes other than 8 and `vncKey` always has 8 bytes, and the source's
remaining guards (`8 > 16` and the repeated challenge-length check) are
statically false, so no other error path exists. -/
def encryptVNCChallenge (password : List Nat) (challenge : Bytes) : Except ErrCat Bytes :=
  if challenge.length ≠ 16 then .error .validation
  else
    .ok (desEncryptBlock (vncKey password) (challenge.take 8)
         ++ desEncryptBlock (vncKey password) (challenge.drop 8))

/-! ## Theorems -/

/-- C1: the claim states that `HextileEncoding.Read` rejects every rectangle with
`ceil(Width/16) * ceil(Height/16) > 100000` tiles at the cap check.  In the code
the cap compares `totalTiles`, which is computed in `uint16` arithmetic and hence
is always below 65536 < 100000: the check can never fire.  In particular, the
rectangle 65520 x 400 needs 4095 * 25 = 102375 > 100000 tiles, yet passes the cap. -/
theorem hextile_tile_cap_never_fires :
    (∀ w h : Nat, hextileCapRejects w h = false)
    ∧ hextileMaxTiles < specHextileTileCount 65520 400
    ∧ hextileCapRejects 65520 400 = false := by
  refine ⟨fun w h => ?_, by decide, by decide⟩
  have hlt : (hextileTilesX w * hextileTilesY h) % 65536 < 65536 :=
    Nat.mod_lt _ (by norm_num)
  simp only [hextileCapRejects, hextileTotalTiles, hextileMaxTiles,
    decide_eq_false_iff_not, not_lt]
  omega

theorem popcount_zero : popcount 0 = 0 := by
  rw [popcount]
  simp

theorem popcount_two_mul (m : Nat) : popcount (2 * m) = popcount m := by
  rcases Nat.eq_zero_or_pos m with hm | hm
  · subst hm; rfl
  · rw [popcount, if_neg (by omega)]
    have h1 : 2 * m / 2 = m := by omega
    have h2 : 2 * m % 2 = 0 := by omega
    rw [h1, h2]
    exact Nat.add_zero _

theorem popcount_two_mul_add_one (m : Nat) : popcount (2 * m + 1) = popcount m + 1 := by
  rw [popcount, if_neg (by omega)]
  have h1 : (2 * m + 1) / 2 = m := by omega
  have h2 : (2 * m + 1) % 2 = 1 := by omega
  rw [h1, h2]

/-- Clearing the lowest set bit: `(2*m+1) &&& (2*m) = 2*m`. -/
theorem land_pred_of_odd (m : Nat) : (2 * m + 1) &&& (2 * m) = 2 * m := by
  apply Nat.eq_of_testBit_eq
  intro k
  cases k with
  | zero => simp [Nat.testBit_land, Nat.testBit_zero]
  | succ k =>
    rw [Nat.testBit_land]
    simp only [Nat.testBit_succ]
    have h1 : (2 * m + 1) / 2 = m := by omega
    have h2 : (2 * m) / 2 = m := by omega
    rw [h1, h2, Bool.and_self]

/-- Clearing the lowest set bit of an even number descends to the half. -/
theorem land_pred_of_even (m : Nat) (hm : 0 < m) :
    (2 * m) &&& (2 * m - 1) = 2 * (m &&& (m - 1)) := by
  apply Nat.eq_of_testBit_eq
  intro k
  cases k with
  | zero => simp [Nat.testBit_land, Nat.testBit_zero]
  | succ k =>
    rw [Nat.testBit_land]
    simp only [Nat.testBit_succ]
    have h1 : (2 * m) / 2 = m := by omega
    have h2 : (2 * m - 1) / 2 = m - 1 := by omega
    have h3 : (2 * (m &&& (m - 1))) / 2 = m &&& (m - 1) := by omega
    rw [h1, h2, h3, Nat.testBit_land]

/-- Masking a positive `v` with `v - 1` removes exactly one set bit. -/
theorem popcount_land_pred : ∀ v, 0 < v → popcount (v &&& (v - 1)) + 1 = popcount v := by
  intro v
  induction v using Nat.strong_induction_on with
  | _ v ih =>
    intro hv
    rcases Nat.even_or_odd v with ⟨m, hm⟩ | ⟨m, hm⟩
    · have hv2 : v = 2 * m := by omega
      have hmpos : 0 < m := by omega
      subst hv2
      have hsub : 2 * m - 1 = 2 * m - 1 := rfl
      rw [land_pred_of_even m hmpos, popcount_two_mul, popcount_two_mul]
      exact ih m (by omega) hmpos
    · have hv2 : v = 2 * m + 1 := by omega
      subst hv2
      have hsub : 2 * m + 1 - 1 = 2 * m := by omega
      rw [hsub, land_pred_of_odd, popcount_two_mul, popcount_two_mul_add_one]

/-- The Go loop computes the popcount. -/
theorem countBitsLoop_eq : ∀ v c, countBitsLoop v c = popcount v + c := by
  intro v
  induction v using Nat.strong_induction_on with
  | _ v ih =>
    intro c
    rcases Nat.eq_zero_or_pos v with hv | hv
    · subst hv
      rw [countBitsLoop, popcount]
      simp
    · rw [countBitsLoop, if_neg (by omega)]
      have hlt : v &&& (v - 1) < v := by
        have h1 : v &&& (v - 1) ≤ v - 1 := Nat.and_le_right
        omega
      rw [ih _ hlt (c + 1), ← popcount_land_pred v hv]
      omega

/-- The loop of `InputValidator.countBits` agrees with the specification's popcount. -/
theorem ivCountBits_eq_popcount (v : Nat) : ivCountBits v = popcount v := by
  rw [ivCountBits, countBitsLoop_eq]
  exact Nat.add_zero _

/-- C4 counterexample: `pfShiftSeven` satisfies every condition of claim C4
(its shifts are strictly below bpp; in particular `red_shift = bpp - 1`), yet
`InputValidator.ValidatePixelFormat` rejects it, because the source compares
`pf.RedShift >= pf.BPP - 1` rather than `>= pf.BPP`. -/
theorem validatePixelFormat_rejects_shift_bpp_minus_one :
    claimC4Accepts pfShiftSeven ∧
    validatePixelFormat pfShiftSeven = .error .validation := by
  constructor
  · refine ⟨by norm_num [pfShiftSeven], by norm_num [pfShiftSeven], by norm_num [pfShiftSeven],
      by norm_num [pfShiftSeven], by norm_num [pfShiftSeven], by norm_num [pfShiftSeven],
      by norm_num [pfShiftSeven], by norm_num [pfShiftSeven], by norm_num [pfShiftSeven], ?_⟩
    have h1 : popcount 1 = 1 := by rw [popcount]; norm_num [popcount_zero]
    simp [pfShiftSeven, h1]
  · rw [validatePixelFormat]
    norm_num [pfShiftSeven]

/-- C4 amended: for a pixel format with `true_color` set,
`InputValidator.ValidatePixelFormat` accepts if and only if bpp is 8, 16 or 32,
`1 ≤ depth ≤ bpp`, the three maxima are non-zero, every shift is strictly less
than `bpp - 1` (so a shift equal to `bpp - 1` is rejected), and the popcounts of
the maxima sum to at most depth. -/
theorem validatePixelFormat_true_color_iff (pf : PixelFormat) (hTC : pf.TrueColor = true) :
    validatePixelFormat pf = .ok () ↔
      ((pf.BPP = 8 ∨ pf.BPP = 16 ∨ pf.BPP = 32) ∧
       1 ≤ pf.Depth ∧ pf.Depth ≤ pf.BPP ∧
       pf.RedMax ≠ 0 ∧ pf.GreenMax ≠ 0 ∧ pf.BlueMax ≠ 0 ∧
       pf.RedShift < pf.BPP - 1 ∧ pf.GreenShift < pf.BPP - 1 ∧ pf.BlueShift < pf.BPP - 1 ∧
       popcount pf.RedMax + popcount pf.GreenMax + popcount pf.BlueMax ≤ pf.Depth) := by
  rw [validatePixelFormat]
  simp only [hTC, if_true, ivCountBits_eq_popcount]
  split_ifs with h1 h2 h3 h4 h5
  · simp only [reduceCtorEq, false_iff]
    rintro ⟨-, hB, hC, -⟩
    rcases h2 with h2 | h2 <;> omega
  · simp only [reduceCtorEq, false_iff]
    rintro ⟨-, -, -, hD, hE, hF, -⟩
    rcases h3 with h3 | h3 | h3 <;> tauto
  · simp only [reduceCtorEq, false_iff]
    rintro ⟨-, -, -, -, -, -, hG, hH, hI, -⟩
    rcases h4 with h4 | h4 | h4 <;> omega
  · simp only [reduceCtorEq, false_iff]
    rintro ⟨-, -, -, -, -, -, -, -, -, hJ⟩
    omega
  · simp only [true_iff]
    push_neg at h2 h3 h4
    exact ⟨h1, by omega, by omega, h3.1, h3.2.1, h3.2.2, h4.1, h4.2.1, h4.2.2, by omega⟩
  · simp only [reduceCtorEq, false_iff]
    rintro ⟨hA, -⟩
    exact h1 hA

/-- C4 amended witness: the 16-bit RGB565 preset (pixel_format.go) is accepted;
its shifts 11, 5, 0 are all strictly below `bpp - 1 = 15`. -/
theorem validatePixelFormat_true_color_iff_witness :
    (PixelFormat.mk 16 16 false true 31 63 31 11 5 0).TrueColor = true ∧
      (validatePixelFormat (PixelFormat.mk 16 16 false true 31 63 31 11 5 0) = .ok () ↔
        (((16:Nat) = 8 ∨ (16:Nat) = 16 ∨ (16:Nat) = 32) ∧
         1 ≤ 16 ∧ 16 ≤ 16 ∧
         (31:Nat) ≠ 0 ∧ (63:Nat) ≠ 0 ∧ (31:Nat) ≠ 0 ∧
         11 < 16 - 1 ∧ 5 < 16 - 1 ∧ 0 < 16 - 1 ∧
         popcount 31 + popcount 63 + popcount 31 ≤ 16)) :=
  ⟨rfl, validatePixelFormat_true_color_iff (PixelFormat.mk 16 16 false true 31 63 31 11 5 0) rfl⟩

/-- C5 counterexample: encode-then-decode is not the identity on all
`PixelFormat` values.  For a non-true-color value with a non-zero `RedMax`,
`writePixelFormat` never writes the color fields and `readPixelFormat` leaves
them zero, so the round trip loses `RedMax`. -/
theorem pixelFormat_roundtrip_counterexample :
    (writePixelFormat pfIndexedRed).length = 16 ∧
    readPixelFormat (writePixelFormat pfIndexedRed) ≠ .ok pfIndexedRed := by
  decide

/-- C5 amended: `writePixelFormat` always returns exactly 16 bytes, and
encode-then-decode is the identity on every `PixelFormat` that is either
true-color or has all six color fields zero (for non-true-color values the
color fields are neither written nor read, so only their zero values survive). -/
theorem pixelFormat_roundtrip (f : PixelFormat)
    (hbpp : f.BPP < 256) (hdepth : f.Depth < 256)
    (hrm : f.RedMax < 65536) (hgm : f.GreenMax < 65536) (hbm : f.BlueMax < 65536)
    (hrs : f.RedShift < 256) (hgs : f.GreenShift < 256) (hbs : f.BlueShift < 256)
    (hplain : f.TrueColor = true ∨
      (f.RedMax = 0 ∧ f.GreenMax = 0 ∧ f.BlueMax = 0 ∧
       f.RedShift = 0 ∧ f.GreenShift = 0 ∧ f.BlueShift = 0)) :
    (writePixelFormat f).length = 16 ∧
    readPixelFormat (writePixelFormat f) = .ok f := by
  obtain ⟨bpp, depth, bigE, tc, rm, gm, bm, rs, gs, bs⟩ := f
  simp only at hbpp hdepth hrm hgm hbm hrs hgs hbs hplain
  cases tc with
  | true =>
    cases bigE <;>
      · constructor
        · simp [writePixelFormat, be16]
        · simp only [writePixelFormat, be16, readPixelFormat, List.cons_append, List.nil_append,
            List.append_assoc, List.take, if_true, if_false, List.replicate, Bool.true_eq,
            reduceIte]
          simp [Except.ok.injEq, PixelFormat.mk.injEq]
          omega
  | false =>
    rcases hplain with hplain | ⟨h1, h2, h3, h4, h5, h6⟩
    · exact absurd hplain (by decide)
    · subst h1; subst h2; subst h3; subst h4; subst h5; subst h6
      cases bigE <;>
        · constructor
          · simp [writePixelFormat, be16]
          · simp only [writePixelFormat, be16, readPixelFormat, List.cons_append, List.nil_append,
              List.append_assoc, List.take, if_true, if_false, List.replicate, Bool.false_eq,
              reduceIte]
            simp [Except.ok.injEq, PixelFormat.mk.injEq]
            omega

/-- C5 amended witness: the 32-bit RGBA preset (pixel_format.go) round-trips. -/
theorem pixelFormat_roundtrip_witness :
    ((32:Nat) < 256 ∧ (24:Nat) < 256 ∧ (255:Nat) < 65536 ∧ (255:Nat) < 65536 ∧
     (255:Nat) < 65536 ∧ (16:Nat) < 256 ∧ (8:Nat) < 256 ∧ (0:Nat) < 256 ∧
     (PixelFormat.mk 32 24 false true 255 255 255 16 8 0).TrueColor = true) ∧
    (writePixelFormat (PixelFormat.mk 32 24 false true 255 255 255 16 8 0)).length = 16 ∧
    readPixelFormat (writePixelFormat (PixelFormat.mk 32 24 false true 255 255 255 16 8 0)) =
      .ok (PixelFormat.mk 32 24 false true 255 255 255 16 8 0) :=
  ⟨⟨by decide, by decide, by decide, by decide, by decide, by decide, by decide, by decide, rfl⟩,
   pixelFormat_roundtrip (PixelFormat.mk 32 24 false true 255 255 255 16 8 0)
     (by decide) (by decide) (by decide) (by decide) (by decide) (by decide) (by decide) (by decide)
     (Or.inl rfl)⟩

/-- The check `ValidateRectangle` succeeds exactly on non-empty rectangles whose far
edges neither overflow `uint16` nor exceed the framebuffer. -/
theorem validateRectangle_ok_iff (x y w h fbW fbH : Nat)
    (hx : x < 65536) (hy : y < 65536) (hw : w < 65536) (hh : h < 65536) :
    validateRectangle x y w h fbW fbH = .ok () ↔
      (0 < w ∧ 0 < h ∧ x + w ≤ 65535 ∧ y + h ≤ 65535 ∧ x + w ≤ fbW ∧ y + h ≤ fbH) := by
  rw [validateRectangle]
  split_ifs with h1 h2 h3
  · constructor
    · intro hc; simp at hc
    · rintro ⟨hw0, hh0, -⟩; omega
  · constructor
    · intro hc; simp at hc
    · rintro ⟨-, -, hxw, hyh, -⟩; omega
  · constructor
    · intro hc; simp at hc
    · rintro ⟨-, -, -, -, hfw, hfh⟩; omega
  · constructor
    · intro _; refine ⟨by omega, by omega, by omega, by omega, by omega, by omega⟩
    · intro _; trivial

/-- C8: in `FramebufferUpdateMessage.Read` a rectangle with non-negative
encoding type reaches its decoder only when `0 < width`, `0 < height`,
`x + width` and `y + height` do not overflow `uint16`, and the rectangle lies
inside the framebuffer; any of these failing yields a protocol error.  A
rectangle with negative (pseudo) encoding type is passed through with no
framebuffer-bounds check at all: the gate's verdict does not depend on the
rectangle or the framebuffer dimensions. -/
theorem framebufferUpdate_rect_gate (x y w h fbW fbH : Nat) (t : Int)
    (hx : x < 65536) (hy : y < 65536) (hw : w < 65536) (hh : h < 65536) :
    (0 ≤ t →
      (rectHeaderCheck x y w h fbW fbH t = .ok () ↔
        validateEncodingType t = .ok () ∧ 0 < w ∧ 0 < h ∧
        x + w ≤ 65535 ∧ y + h ≤ 65535 ∧ x + w ≤ fbW ∧ y + h ≤ fbH)) ∧
    (0 ≤ t → rectHeaderCheck x y w h fbW fbH t ≠ .ok () →
      rectHeaderCheck x y w h fbW fbH t = .error .protocol) ∧
    (t < 0 → ∀ x2 y2 w2 h2 fbW2 fbH2,
      rectHeaderCheck x y w h fbW fbH t = rectHeaderCheck x2 y2 w2 h2 fbW2 fbH2 t) := by
  refine ⟨?_, ?_, ?_⟩
  · intro ht
    cases he : validateEncodingType t with
    | error e =>
      have hcheck : rectHeaderCheck x y w h fbW fbH t = .error .protocol := by
        simp only [rectHeaderCheck, he]
      rw [hcheck]
      constructor
      · intro hc; exact Except.noConfusion hc
      · rintro ⟨h1, -⟩
        exact Except.noConfusion h1
    | ok u =>
      cases u
      cases hr : validateRectangle x y w h fbW fbH with
      | error e =>
        have hcheck : rectHeaderCheck x y w h fbW fbH t = .error .protocol := by
          simp only [rectHeaderCheck, he, if_neg (show ¬ t < 0 by omega), hr]
        rw [hcheck]
        constructor
        · intro hc; exact Except.noConfusion hc
        · rintro ⟨-, hw0, hh0, hxw, hyh, hfw, hfh⟩
          have hok := (validateRectangle_ok_iff x y w h fbW fbH hx hy hw hh).mpr
            ⟨hw0, hh0, hxw, hyh, hfw, hfh⟩
          rw [hr] at hok
          exact Except.noConfusion hok
      | ok u =>
        cases u
        have hcheck : rectHeaderCheck x y w h fbW fbH t = .ok () := by
          simp only [rectHeaderCheck, he, if_neg (show ¬ t < 0 by omega), hr]
        rw [hcheck]
        have hb := (validateRectangle_ok_iff x y w h fbW fbH hx hy hw hh).mp hr
        constructor
        · intro _
          exact ⟨rfl, hb.1, hb.2.1, hb.2.2.1, hb.2.2.2.1, hb.2.2.2.2.1, hb.2.2.2.2.2⟩
        · intro _; rfl
  · intro ht hne
    cases he : validateEncodingType t with
    | error e => simp only [rectHeaderCheck, he]
    | ok u =>
      cases u
      cases hr : validateRectangle x y w h fbW fbH with
      | error e => simp only [rectHeaderCheck, he, if_neg (show ¬ t < 0 by omega), hr]
      | ok u =>
        cases u
        exfalso
        apply hne
        simp only [rectHeaderCheck, he, if_neg (show ¬ t < 0 by omega), hr]
  · intro ht x2 y2 w2 h2 fbW2 fbH2
    cases he : validateEncodingType t with
    | error e => simp only [rectHeaderCheck, he]
    | ok u =>
      cases u
      simp only [rectHeaderCheck, he, if_pos ht]

/-- C8 witness: the spec's boundary example, a 20 x 100 rectangle at
`x = 1900` on a 1920 x 1080 framebuffer with Raw encoding (type 0), passes
the gate exactly because it ends at the framebuffer edge. -/
theorem framebufferUpdate_rect_gate_witness :
    ((1900:Nat) < 65536 ∧ (0:Nat) < 65536 ∧ (20:Nat) < 65536 ∧ (100:Nat) < 65536) ∧
    ((0 ≤ (0:Int) →
      (rectHeaderCheck 1900 0 20 100 1920 1080 0 = .ok () ↔
        validateEncodingType 0 = .ok () ∧ 0 < 20 ∧ 0 < 100 ∧
        1900 + 20 ≤ 65535 ∧ 0 + 100 ≤ 65535 ∧ 1900 + 20 ≤ 1920 ∧ 0 + 100 ≤ 1080)) ∧
     (0 ≤ (0:Int) → rectHeaderCheck 1900 0 20 100 1920 1080 0 ≠ .ok () →
       rectHeaderCheck 1900 0 20 100 1920 1080 0 = .error .protocol) ∧
     ((0:Int) < 0 → ∀ x2 y2 w2 h2 fbW2 fbH2,
       rectHeaderCheck 1900 0 20 100 1920 1080 0 = rectHeaderCheck x2 y2 w2 h2 fbW2 fbH2 0)) :=
  ⟨⟨by decide, by decide, by decide, by decide⟩,
   framebufferUpdate_rect_gate 1900 0 20 100 1920 1080 0
     (by decide) (by decide) (by decide) (by decide)⟩

/-- C9 counterexample: `SetPixelFormat` succeeds on `connIndexed` with
`fmtRGB888`, yet the stored `PixelFormat` field still equals the old format
and not the format that was set: the method never assigns `c.PixelFormat`. -/
theorem setPixelFormat_does_not_store_format :
    (setPixelFormat connIndexed fmtRGB888).map (fun r => r.1.PixelFormat) =
      .ok connIndexed.PixelFormat ∧
    connIndexed.PixelFormat ≠ fmtRGB888 := by
  constructor
  · have h255 : popcount 255 = 8 := by simp [popcount]
    have hv : validatePixelFormat fmtRGB888 = .ok () := by
      rw [validatePixelFormat]
      norm_num [fmtRGB888, ivCountBits_eq_popcount, h255]
    rw [setPixelFormat, hv]
    rfl
  · decide

/-- C9 amended: a successful `SetPixelFormat` writes exactly the 20-byte frame
`[0, 0, 0, 0] ++ writePixelFormat format` and changes the session state only by
resetting the 256-entry color map to all-zero; `PixelFormat` (as well as the
framebuffer dimensions, desktop name and encoding list) is left unchanged.  A
format failing validation yields a validation error and neither writes bytes
nor touches the state. -/
theorem setPixelFormat_effect (c : ClientConn) (f : PixelFormat) :
    (validatePixelFormat f = .ok () →
      setPixelFormat c f =
        .ok ({ c with ColorMap := List.replicate 256 Color.zero },
             [0, 0, 0, 0] ++ writePixelFormat f)) ∧
    (∀ e, validatePixelFormat f = .error e → setPixelFormat c f = .error .validation) := by
  constructor
  · intro hv
    rw [setPixelFormat, hv]
  · intro e hv
    rw [setPixelFormat, hv]

/-- C9 amended witness: setting `fmtRGB888` on `connIndexed`. -/
theorem setPixelFormat_effect_witness :
    validatePixelFormat fmtRGB888 = .ok () ∧
    setPixelFormat connIndexed fmtRGB888 =
      .ok ({ connIndexed with ColorMap := List.replicate 256 Color.zero },
           [0, 0, 0, 0] ++ writePixelFormat fmtRGB888) := by
  have h255 : popcount 255 = 8 := by simp [popcount]
  have hv : validatePixelFormat fmtRGB888 = .ok () := by
    rw [validatePixelFormat]
    norm_num [fmtRGB888, ivCountBits_eq_popcount, h255]
  exact ⟨hv, (setPixelFormat_effect connIndexed fmtRGB888).1 hv⟩

/-- C10: `InputValidator.ValidateMessageLength` rejects a zero length, so a
ServerInit message whose desktop-name length field is 0 always makes the
handshake fail with a protocol error — whatever the dimensions and pixel
format are — and the connection never reaches the Running state (which is
entered only when the ServerInit stage returns successfully). -/
theorem serverInit_zero_name_length_fails (width height : Nat) (pfBytes : Bytes) :
    validateMessageLength 0 (1024 * 1024) = .error .validation ∧
    serverInitValidate width height pfBytes 0 = .error .protocol := by
  constructor
  · rw [validateMessageLength]
    simp
  · have h0 : validateMessageLength 0 (1024 * 1024) = .error .validation := by
      rw [validateMessageLength]
      simp
    cases hfb : validateFramebufferDimensions width height with
    | error e => simp only [serverInitValidate, hfb]
    | ok u =>
      cases u
      cases hpf : readPixelFormat pfBytes with
      | error e => simp only [serverInitValidate, hfb, hpf]
      | ok pixelFormat =>
        cases hv : validatePixelFormat pixelFormat with
        | error e => simp only [serverInitValidate, hfb, hpf, hv]
        | ok u =>
          cases u
          simp only [serverInitValidate, hfb, hpf, hv, h0]

/-- C6: `PixelReader.ReadPixelColor` consumes exactly `bpp/8` bytes and leaves
the rest of the stream; the raw value is assembled in the byte order selected
by `BigEndian` (shown for the two-byte case); with `true_color` set it returns
`(raw >> shift) & max` per component, unscaled (the `uint16` cast never
truncates since each `max` is a `uint16`); with `true_color` unset it returns
the color-map entry at index `raw`, and for `bpp = 8` that raw index always
lies in `[0, 255]`. -/
theorem readPixelColor_spec (pf : PixelFormat) (cm : List Color) (s : Bytes)
    (hlen : pf.BPP / 8 ≤ s.length)
    (hrm : pf.RedMax < 65536) (hgm : pf.GreenMax < 65536) (hbm : pf.BlueMax < 65536) :
    (pf.TrueColor = true →
      readPixelColor pf cm s =
        .ok ({ R := (bytesToPixel pf (s.take (pf.BPP / 8)) >>> pf.RedShift) &&& pf.RedMax
               G := (bytesToPixel pf (s.take (pf.BPP / 8)) >>> pf.GreenShift) &&& pf.GreenMax
               B := (bytesToPixel pf (s.take (pf.BPP / 8)) >>> pf.BlueShift) &&& pf.BlueMax },
             s.drop (pf.BPP / 8))) ∧
    (pf.TrueColor = false →
      ∀ hidx : bytesToPixel pf (s.take (pf.BPP / 8)) < cm.length,
      readPixelColor pf cm s =
        .ok (cm.get ⟨bytesToPixel pf (s.take (pf.BPP / 8)), hidx⟩, s.drop (pf.BPP / 8))) ∧
    (∀ b0 b1 : Nat, pf.BPP = 16 →
      bytesToPixel pf [b0, b1] = if pf.BigEndian then b0 * 256 + b1 else b1 * 256 + b0) ∧
    (pf.BPP = 8 → (∀ b ∈ s, b < 256) → bytesToPixel pf (s.take (pf.BPP / 8)) < 256) := by
  have hread : readN (pf.BPP / 8) s = .ok (s.take (pf.BPP / 8), s.drop (pf.BPP / 8)) := by
    rw [readN, if_neg (by omega)]
  refine ⟨?_, ?_, ?_, ?_⟩
  · intro hTC
    have hmr : ((bytesToPixel pf (s.take (pf.BPP / 8)) >>> pf.RedShift) &&& pf.RedMax) % 65536 =
        (bytesToPixel pf (s.take (pf.BPP / 8)) >>> pf.RedShift) &&& pf.RedMax :=
      Nat.mod_eq_of_lt (Nat.lt_of_le_of_lt Nat.and_le_right hrm)
    have hmg : ((bytesToPixel pf (s.take (pf.BPP / 8)) >>> pf.GreenShift) &&& pf.GreenMax) % 65536 =
        (bytesToPixel pf (s.take (pf.BPP / 8)) >>> pf.GreenShift) &&& pf.GreenMax :=
      Nat.mod_eq_of_lt (Nat.lt_of_le_of_lt Nat.and_le_right hgm)
    have hmb : ((bytesToPixel pf (s.take (pf.BPP / 8)) >>> pf.BlueShift) &&& pf.BlueMax) % 65536 =
        (bytesToPixel pf (s.take (pf.BPP / 8)) >>> pf.BlueShift) &&& pf.BlueMax :=
      Nat.mod_eq_of_lt (Nat.lt_of_le_of_lt Nat.and_le_right hbm)
    simp only [readPixelColor, hread, pixelToColor, hTC, if_true, hmr, hmg, hmb]
  · intro hTC hidx
    have hget : cm.get? (bytesToPixel pf (s.take (pf.BPP / 8))) =
        some (cm.get ⟨bytesToPixel pf (s.take (pf.BPP / 8)), hidx⟩) :=
      List.get?_eq_get hidx
    simp only [readPixelColor, hread, pixelToColor, hTC, Bool.false_eq_true, if_false, hget]
  · intro b0 b1 h16
    simp only [bytesToPixel, h16]
    norm_num
  · intro h8 h256
    cases s with
    | nil =>
      rw [h8] at hlen
      simp at hlen
    | cons a t =>
      have ht : (a :: t).take (pf.BPP / 8) = [a] := by simp [h8]
      rw [ht]
      have ha : bytesToPixel pf [a] = a := by simp [bytesToPixel, h8]
      rw [ha]
      exact h256 a (List.mem_cons_self a t)

/-- C6 witness: the spec's 32-bpp example — bytes `00 00 FF 00` under RGB888
little-endian decode to `(R, G, B) = (255, 0, 0)`. -/
theorem readPixelColor_spec_witness :
    (fmtRGB888.BPP / 8 ≤ ([0, 0, 255, 0] : Bytes).length ∧
     fmtRGB888.RedMax < 65536 ∧ fmtRGB888.GreenMax < 65536 ∧ fmtRGB888.BlueMax < 65536) ∧
    (fmtRGB888.TrueColor = true →
      readPixelColor fmtRGB888 [] [0, 0, 255, 0] =
        .ok ({ R := (bytesToPixel fmtRGB888 (([0, 0, 255, 0] : Bytes).take (fmtRGB888.BPP / 8)) >>>
                      fmtRGB888.RedShift) &&& fmtRGB888.RedMax
               G := (bytesToPixel fmtRGB888 (([0, 0, 255, 0] : Bytes).take (fmtRGB888.BPP / 8)) >>>
                      fmtRGB888.GreenShift) &&& fmtRGB888.GreenMax
               B := (bytesToPixel fmtRGB888 (([0, 0, 255, 0] : Bytes).take (fmtRGB888.BPP / 8)) >>>
                      fmtRGB888.BlueShift) &&& fmtRGB888.BlueMax },
             ([0, 0, 255, 0] : Bytes).drop (fmtRGB888.BPP / 8))) ∧
    readPixelColor fmtRGB888 [] [0, 0, 255, 0] = .ok (⟨255, 0, 0⟩, []) :=
  ⟨⟨by decide, by decide, by decide, by decide⟩,
   ((readPixelColor_spec fmtRGB888 [] [0, 0, 255, 0]
      (by decide) (by decide) (by decide) (by decide)).1),
   by decide⟩

/-- C7: in `HextileEncoding.Read`, a non-raw tile without `BackgroundSpecified`
takes its `Background` from the running background carried over from earlier
tiles and leaves the running value unchanged, and likewise for `Foreground`
without `ForegroundSpecified`; and in the concrete two-tile 32 x 16 scenario
(first tile subencoding `0x02` followed by one red RGB888 pixel, second tile
subencoding `0x00`) the second tile's background equals the first tile's red
pixel. -/
theorem hextile_background_inheritance :
    (∀ (pf : PixelFormat) (cm : List Color) (bg fg : Color) (tw th sub : Nat) (s1 : Bytes)
       (tile : HextileTile) (bg2 fg2 : Color) (rest : Bytes),
       sub &&& 1 = 0 →
       decodeTile pf cm bg fg tw th (sub :: s1) = .ok (tile, bg2, fg2, rest) →
       ((sub &&& 2 = 0 → tile.Background = bg ∧ bg2 = bg) ∧
        (sub &&& 4 = 0 → tile.Foreground = fg ∧ fg2 = fg))) ∧
    hextileRead 32 16 0 0 32 16 fmtRGB888 [] [2, 0, 0, 255, 0, 0] =
      .ok [ { Width := 16, Height := 16, Background := ⟨255, 0, 0⟩, Foreground := Color.zero,
              Colors := [], Subrectangles := [] },
            { Width := 16, Height := 16, Background := ⟨255, 0, 0⟩, Foreground := Color.zero,
              Colors := [], Subrectangles := [] } ] := by
  constructor
  · intro pf cm bg fg tw th sub s1 tile bg2 fg2 rest hraw hdec
    rw [decodeTile] at hdec
    rw [if_neg (by simp [hraw])] at hdec
    constructor
    · intro hflag
      rw [if_neg (by simp [hflag])] at hdec
      repeat' split at hdec
      all_goals simp_all
      all_goals
        obtain ⟨htile, hb, hf, hs⟩ := hdec
        subst htile
        simp_all
    · intro hflag
      repeat' split at hdec
      all_goals simp_all
      all_goals
        obtain ⟨htile, hb, hf, hs⟩ := hdec
        subst htile
        simp_all
  · decide

/-- C7 witness: the general inheritance statement applied to the scenario's
second tile — subencoding `0x00`, running background red — yields a tile whose
background is that red and leaves the running background red. -/
theorem hextile_background_inheritance_witness :
    ((0 &&& 1 = 0) ∧
     decodeTile fmtRGB888 [] ⟨255, 0, 0⟩ Color.zero 16 16 [0] =
       .ok ({ Width := 16, Height := 16, Background := ⟨255, 0, 0⟩, Foreground := Color.zero,
              Colors := [], Subrectangles := [] }, ⟨255, 0, 0⟩, Color.zero, [])) ∧
    ((0 &&& 2 = 0 →
      ({ Width := 16, Height := 16, Background := ⟨255, 0, 0⟩, Foreground := Color.zero,
         Colors := [], Subrectangles := [] } : HextileTile).Background = ⟨255, 0, 0⟩ ∧
      (⟨255, 0, 0⟩ : Color) = ⟨255, 0, 0⟩) ∧
     (0 &&& 4 = 0 →
      ({ Width := 16, Height := 16, Background := ⟨255, 0, 0⟩, Foreground := Color.zero,
         Colors := [], Subrectangles := [] } : HextileTile).Foreground = Color.zero ∧
      Color.zero = Color.zero)) :=
  ⟨⟨by decide, by decide⟩,
   hextile_background_inheritance.1 fmtRGB888 [] ⟨255, 0, 0⟩ Color.zero 16 16 0 []
     { Width := 16, Height := 16, Background := ⟨255, 0, 0⟩, Foreground := Color.zero,
       Colors := [], Subrectangles := [] } ⟨255, 0, 0⟩ Color.zero []
     (by decide) (by decide)⟩

/-- C2: `CutText` accepts the one-character string `"é"` (code point 233 —
valid UTF-8, within the length bound, no control characters, at most 255),
but the frame it writes is `[6,0,0,0, 0,0,0,2, 233, 0]`: the u32 length field
counts the character's two UTF-8 bytes while the loop writes a single byte
per rune, so the frame is not the type-6 header followed by the text's bytes
with a matching length, which would be `[6,0,0,0, 0,0,0,1, 233]`. -/
theorem cutText_length_counts_utf8_bytes :
    validateTextData [233] 1048576 = .ok () ∧
    sanitizeText [233] = [233] ∧
    cutText [233] = .ok [6, 0, 0, 0, 0, 0, 0, 2, 233, 0] ∧
    cutText [233] ≠ .ok ([6, 0, 0, 0] ++ be32 1 ++ [233]) := by
  decide

set_option maxRecDepth 10000 in
/-- Known-answer validation of the embedded DES: the FIPS 46-3 worked example,
the all-zero key/block vector, and the VNC response for password byte `0x31`
with challenge bytes `0..15`. -/
theorem desEncrypt64_known_answer :
    desEncrypt64 0x133457799BBCDFF1 0x0123456789ABCDEF = 0x85E813540F0AB405 ∧
    desEncrypt64 0 0 = 0x8CA64DE9C1B123A7 ∧
    encryptVNCChallenge [0x31] (List.range 16) =
      .ok [88, 201, 253, 35, 224, 126, 212, 168, 238, 60, 8, 79, 43, 123, 191, 124] := by
  refine ⟨by decide, by decide, by decide⟩

set_option maxRecDepth 10000 in
/-- C3: `EncryptVNCChallenge` is a pure function that, on any 16-byte
challenge, returns the concatenation of the single-DES-ECB encryptions of the
two challenge halves under the key built from the first 8 password bytes,
zero-padded to 8 and bit-reversed bytewise (`0x31` becomes `0x8C`; the lookup
table agrees with mathematical bit reversal on every byte); the response is
unchanged when the password is replaced by its 8-byte prefix. -/
theorem encryptVNCChallenge_spec (password : List Nat) (challenge : Bytes)
    (hch : challenge.length = 16) :
    encryptVNCChallenge password challenge =
      .ok (desEncryptBlock (vncKey password) (challenge.take 8) ++
           desEncryptBlock (vncKey password) (challenge.drop 8)) ∧
    encryptVNCChallenge password challenge = encryptVNCChallenge (password.take 8) challenge ∧
    vncKey password =
      (password.take 8).map reverseBitsSecure ++
        List.replicate (8 - min password.length 8) 0 ∧
    reverseBitsSecure 0x31 = 0x8C ∧
    (∀ b, b < 256 → reverseBitsSecure b = bitRev8 b) := by
  have htake8 : password.take (min password.length 8) = password.take 8 := by
    rcases Nat.le_total password.length 8 with hle | hle
    · rw [Nat.min_eq_left hle, List.take_length, List.take_of_length_le hle]
    · rw [Nat.min_eq_right hle]
  have hlen8 : min (password.take 8).length 8 = min password.length 8 := by
    simp only [List.length_take]
    omega
  have hkeyPrefix : vncKey (password.take 8) = vncKey password := by
    rw [vncKey, vncKey, htake8, hlen8, List.take_take]
    have hmin : min (min password.length 8) 8 = min password.length 8 := by omega
    rw [hmin, htake8]
  refine ⟨?_, ?_, ?_, by decide, ?_⟩
  · rw [encryptVNCChallenge, if_neg (by omega)]
  · simp only [encryptVNCChallenge, hkeyPrefix]
  · rw [vncKey, htake8]
  · decide

set_option maxRecDepth 10000 in
/-- C3 witness: password `"1"` (byte `0x31`) and the challenge `0..15`. -/
theorem encryptVNCChallenge_spec_witness :
    (List.range 16).length = 16 ∧
    (encryptVNCChallenge [0x31] (List.range 16) =
      .ok (desEncryptBlock (vncKey [0x31]) ((List.range 16).take 8) ++
           desEncryptBlock (vncKey [0x31]) ((List.range 16).drop 8)) ∧
     encryptVNCChallenge [0x31] (List.range 16) =
       encryptVNCChallenge ([0x31].take 8) (List.range 16) ∧
     vncKey [0x31] =
       ([0x31].map reverseBitsSecure : List Nat).take 8 ++
         List.replicate (8 - min ([0x31] : List Nat).length 8) 0 ∧
     reverseBitsSecure 0x31 = 0x8C ∧
     (∀ b, b < 256 → reverseBitsSecure b = bitRev8 b)) := by
  refine ⟨by decide, ?_⟩
  have h := encryptVNCChallenge_spec [0x31] (List.range 16) (by decide)
  exact ⟨h.1, h.2.1, by decide, h.2.2.2.1, h.2.2.2.2⟩

end GoVNC
